import Mathlib

/-!
Verification of the instance-tracker module
(`packages/apputils/src/instancetracker.ts`).

The module defines two near-identical classes: `InstanceTracker` (a plain
registry over a `Set`) and `WidgetTracker` (a UI-specialized registry backed
by a phosphor `FocusTracker`).  Both track disposable items, expose a
`current` pointer, persist per-item records in a state database, and offer a
one-shot `restore` protocol that replays persisted records through a command
registry.

The embedding below models each class as a state machine.  Items are
identified by natural numbers.  Every operation returns the successor state
together with an ordered trace of observable events: store writes/removes,
signal emissions (`added`, `currentChanged`, `updated`), mutation markers,
and a `writeLanded` marker placed at the point in program order where an
asynchronous store write's completion is observed (the `await` resumption in
`InstanceTracker.add`, and after the synchronous segment in
`WidgetTracker.add`, whose returned promise is the unawaited save promise).
-/

/-- JavaScript values, as far as the restore loop distinguishes them:
`undefined`, `null`, booleans, numbers, strings, and objects (association
lists of fields).  The distinction between `undefined` and `null` matters
because the loop tests `args === undefined`. -/
inductive JSVal where
  | undefined : JSVal
  | null : JSVal
  | bool : Bool → JSVal
  | num : Int → JSVal
  | str : String → JSVal
  | obj : List (String × JSVal) → JSVal

/-- The strict test `v === undefined`. -/
def JSVal.isUndefined : JSVal → Bool
  | JSVal.undefined => true
  | _ => false

/-- JavaScript truthiness for the values modelled by `JSVal`. -/
def jsTruthy : JSVal → Bool
  | JSVal.undefined => false
  | JSVal.null => false
  | JSVal.bool b => b
  | JSVal.num n => n != 0
  | JSVal.str s => s != ""
  | JSVal.obj _ => true

/-- Field access `v[key]` on an object; `undefined` for a missing field or a
non-object receiver (the code only dereferences truthy values). -/
def jsGetField : JSVal → String → JSVal
  | JSVal.obj fields, key => (((fields.find? (fun p => p.1 == key)).map Prod.snd).getD JSVal.undefined)
  | _, _ => JSVal.undefined

/-- The extraction `value && (value as any).data` from the restore loop:
if `value` is falsy the whole expression is `value`, otherwise it is the
`data` field of `value`. -/
def jsArgs (value : JSVal) : JSVal :=
  if jsTruthy value then jsGetField value "data" else value

/-- Outcome of processing one persisted record during `restore`: whether
`state.remove(id)` was issued, the argument passed to `registry.execute`
when it was invoked, and the resolved value when execution succeeded. -/
structure RecordResult where
  removed : Bool
  executedWith : Option JSVal
  outcome : Option JSVal

/-- Per-record body of the restore loop: compute
`args = value && value.data`; if `args === undefined` remove the record;
otherwise execute the command and remove the record if execution rejects. -/
def processRecord (execute : String → JSVal → Except Unit JSVal) (command : String)
    (value : JSVal) : RecordResult :=
  let args := jsArgs value
  if args.isUndefined then
    { removed := true, executedWith := none, outcome := none }
  else
    match execute command args with
    | Except.ok v => { removed := false, executedWith := some args, outcome := some v }
    | Except.error _ => { removed := true, executedWith := some args, outcome := none }

/-- The fan-out over all listed records: each record is processed
independently by `processRecord`. -/
def restoreProcess (execute : String → JSVal → Except Unit JSVal) (command : String)
    (values : List JSVal) : List RecordResult :=
  values.map (processRecord execute command)

/-- Lookup in an attached-property association list, with the property's
default value `""` for an object never set (phosphor `AttachedProperty`
with `create: () => ''`). -/
def propGet (props : List (Nat × String)) (obj : Nat) : String :=
  (((props.find? (fun p => p.1 == obj)).map Prod.snd).getD "")

/-- Setting an attached property: newest binding shadows older ones. -/
def propSet (props : List (Nat × String)) (obj : Nat) (v : String) : List (Nat × String) :=
  (obj, v) :: props

/-- The restore configuration (`InstanceTracker.IRestoreOptions`): the
command id, the naming function and the argument-extraction function.  The
state database and command registry are external collaborators; their calls
are recorded as events or supplied as oracle functions. -/
structure RestoreCfg where
  command : String
  nameOf : Nat → String
  argsOf : Nat → JSVal

/-- Observable events, in program order.  `writeLanded` marks the point at
which the completion of a previously issued asynchronous store write is
observed. -/
inductive Ev where
  | inserted : Nat → Ev
  | curSet : Option Nat → Ev
  | storeSave : String → JSVal → Ev
  | storeRemove : String → Ev
  | writeLanded : String → Ev
  | added : Nat → Ev
  | currentChanged : Option Nat → Ev
  | updated : Nat → Ev
  | resolvedRestored : Ev

/-- State of a plain `InstanceTracker`: the namespace, the member set (as a
duplicate-free list in insertion order), the current pointer, the one-shot
restoration flag, the installed restore configuration, how many times the
`restored` promise has been resolved, which items have their `disposed`
signal connected to the cleanup handler, and the two attached properties
(`injected`, `name`). -/
structure Tracker where
  ns : String
  instances : List Nat
  current : Option Nat
  hasRestored : Bool
  restoreCfg : Option RestoreCfg
  resolveCount : Nat
  connected : List Nat
  injectedProp : List Nat
  nameProp : List (Nat × String)

/-- A freshly constructed tracker. -/
def Tracker.init (ns : String) : Tracker :=
  { ns := ns, instances := [], current := none, hasRestored := false,
    restoreCfg := none, resolveCount := 0, connected := [], injectedProp := [],
    nameProp := [] }

/-- The `current` setter: a no-op when the reference is unchanged, otherwise
update the field and emit `currentChanged`. -/
def Tracker.setCurrent (tr : Tracker) (obj : Nat) : Tracker × List Ev :=
  if tr.current = some obj then (tr, [])
  else ({ tr with current := some obj },
        [Ev.curSet (some obj), Ev.currentChanged (some obj)])

/-- The persistence step of `InstanceTracker.add`: when a restore
configuration is installed and the naming function yields a non-empty
name, record the name and write `{data: args(obj)}` to the store, awaiting
the write (hence the `writeLanded` marker directly after the issued
write). -/
def Tracker.addPersistPhase (tr : Tracker) (obj : Nat) : Tracker × List Ev :=
  match tr.restoreCfg with
  | none => (tr, [])
  | some cfg =>
    let objName := cfg.nameOf obj
    if objName = "" then (tr, [])
    else
      let name := tr.ns ++ ":" ++ objName
      ({ tr with nameProp := propSet tr.nameProp obj name },
       [Ev.storeSave name (cfg.argsOf obj), Ev.writeLanded name])

/-- The `if (this.current === null) { this.current = obj; }` step of
`InstanceTracker.add` (running the setter, which emits `currentChanged`). -/
def Tracker.addCurrentPhase (tr : Tracker) (obj : Nat) : Tracker × List Ev :=
  if tr.current = none then
    ({ tr with current := some obj },
     [Ev.curSet (some obj), Ev.currentChanged (some obj)])
  else (tr, [])

/-- `InstanceTracker.add`: reject a disposed object, reject a duplicate,
insert into the set, return early for injected items; otherwise connect the
disposal handler, run the persistence step (awaited), make the item current
when `current` is `null`, and emit `added`. -/
def Tracker.addOp (tr : Tracker) (obj : Nat) (isDisposed : Bool) :
    Tracker × List Ev × Option String :=
  if isDisposed then (tr, [], some "A disposed object cannot be added.")
  else if tr.instances.contains obj then
    (tr, [], some "This object already exists in the tracker.")
  else
    let tr1 := { tr with instances := tr.instances ++ [obj] }
    if tr1.injectedProp.contains obj then (tr1, [Ev.inserted obj], none)
    else
      let tr2 := { tr1 with connected := tr1.connected ++ [obj] }
      let p := tr2.addPersistPhase obj
      let c := p.1.addCurrentPhase obj
      (c.1, [Ev.inserted obj] ++ p.2 ++ c.2 ++ [Ev.added obj], none)

/-- `InstanceTracker.inject`: set the `injected` attached property, then
delegate to `add` (the property write persists even when `add` rejects). -/
def Tracker.injectOp (tr : Tracker) (obj : Nat) (isDisposed : Bool) :
    Tracker × List Ev × Option String :=
  Tracker.addOp { tr with injectedProp := obj :: tr.injectedProp } obj isDisposed

/-- `InstanceTracker.save`: a no-op without a restore configuration, for an
untracked item, or for an injected item.  Otherwise: delete the old record
when the old name is non-empty and differs from the new one, unconditionally
update the recorded name, write the new record when the new name is
non-empty, and emit `updated` exactly when the name changed. -/
def Tracker.saveOp (tr : Tracker) (obj : Nat) : Tracker × List Ev :=
  match tr.restoreCfg with
  | none => (tr, [])
  | some cfg =>
    if !(tr.instances.contains obj) || tr.injectedProp.contains obj then (tr, [])
    else
      let objName := cfg.nameOf obj
      let oldName := propGet tr.nameProp obj
      let newName := if objName = "" then "" else tr.ns ++ ":" ++ objName
      let evs1 := if oldName != "" && oldName != newName
        then [Ev.storeRemove oldName] else []
      let tr1 := { tr with nameProp := propSet tr.nameProp obj newName }
      let evs2 := if newName != ""
        then [Ev.storeSave newName (cfg.argsOf obj)] else []
      let evs3 := if oldName != newName then [Ev.updated obj] else []
      (tr1, evs1 ++ evs2 ++ evs3)

/-- `InstanceTracker._onInstanceDisposed`: delete the item from the set;
stop for injected items; null out `current` (emitting `currentChanged`)
when the disposed item was current; best-effort remove the persisted record
when a restore configuration is installed and the recorded name is
non-empty. -/
def Tracker.onInstanceDisposed (tr : Tracker) (obj : Nat) : Tracker × List Ev :=
  let tr1 := { tr with instances := tr.instances.erase obj }
  if tr1.injectedProp.contains obj then (tr1, [])
  else
    let afterCurrent : Tracker × List Ev :=
      if tr1.current = some obj then
        ({ tr1 with current := none }, [Ev.curSet none, Ev.currentChanged none])
      else (tr1, [])
    let tr2 := afterCurrent.1
    match tr2.restoreCfg with
    | none => (tr2, afterCurrent.2)
    | some _ =>
      let name := propGet tr2.nameProp obj
      if name = "" then (tr2, afterCurrent.2)
      else (tr2, afterCurrent.2 ++ [Ev.storeRemove name])

/-- Synchronous prefix of `InstanceTracker.restore` (everything before the
first `await`): reject a second call, otherwise mark the tracker restored
and install the configuration. -/
def Tracker.restoreSyncPhase (tr : Tracker) (cfg : RestoreCfg) :
    Except String Tracker :=
  if tr.hasRestored then Except.error "Instance tracker has already restored"
  else Except.ok { tr with hasRestored := true, restoreCfg := some cfg }

/-- Asynchronous remainder of `restore`: process every listed record
independently, issue the per-record removals, then resolve the `restored`
promise. -/
def Tracker.restoreAsyncPhase (tr : Tracker) (cfg : RestoreCfg)
    (execute : String → JSVal → Except Unit JSVal)
    (records : List (String × JSVal)) :
    Tracker × List RecordResult × List Ev :=
  let results := restoreProcess execute cfg.command (records.map Prod.snd)
  let removeEvs := (records.filter
    (fun r => (processRecord execute cfg.command r.2).removed)).map
    (fun r => Ev.storeRemove r.1)
  ({ tr with resolveCount := tr.resolveCount + 1 }, results,
   removeEvs ++ [Ev.resolvedRestored])

/-- Operations a client or the environment can perform on a tracker.
`dispose obj` is the firing of `obj`'s disposal notification; `restore`
carries the configuration together with the environment's responses (the
command registry oracle and the store listing). -/
inductive Op where
  | add : Nat → Bool → Op
  | inject : Nat → Bool → Op
  | save : Nat → Op
  | dispose : Nat → Op
  | setCur : Nat → Op
  | restore : RestoreCfg → (String → JSVal → Except Unit JSVal) →
      List (String × JSVal) → Op

/-- One step of the plain tracker: dispatch an operation, producing the
successor state, the event trace, and an error message when the operation
rejects.  A disposal notification runs the cleanup handler only when it was
connected. -/
def Tracker.step (tr : Tracker) : Op → Tracker × List Ev × Option String
  | Op.add obj d => tr.addOp obj d
  | Op.inject obj d => tr.injectOp obj d
  | Op.save obj =>
      let r := tr.saveOp obj
      (r.1, r.2, none)
  | Op.dispose obj =>
      if tr.connected.contains obj then
        let r := tr.onInstanceDisposed obj
        (r.1, r.2, none)
      else (tr, [], none)
  | Op.setCur obj =>
      let r := tr.setCurrent obj
      (r.1, r.2, none)
  | Op.restore cfg execute records =>
      match tr.restoreSyncPhase cfg with
      | Except.error e => (tr, [], some e)
      | Except.ok tr1 =>
          let r := tr1.restoreAsyncPhase cfg execute records
          (r.1, r.2.2, none)

/-- The state after one step. -/
def Tracker.stepState (tr : Tracker) (op : Op) : Tracker := (tr.step op).1

/-- Running a sequence of operations. -/
def Tracker.runOps (tr : Tracker) : List Op → Tracker
  | [] => tr
  | op :: rest => (tr.stepState op).runOps rest

/-- State of a `WidgetTracker`: membership lives in the backing phosphor
`FocusTracker` (`trackerWidgets`, whose `currentWidget` is the external
focus source's current item `focusCurrent`), the `_widgets` array keeps
insertion order for the last-added fallback, and `currentWidget` is the
tracker's own current pointer.  The remaining fields mirror `Tracker`. -/
structure WTracker where
  ns : String
  widgets : List Nat
  trackerWidgets : List Nat
  focusCurrent : Option Nat
  currentWidget : Option Nat
  hasRestored : Bool
  restoreCfg : Option RestoreCfg
  resolveCount : Nat
  connected : List Nat
  injectedProp : List Nat
  nameProp : List (Nat × String)

/-- A freshly constructed widget tracker. -/
def WTracker.init (ns : String) : WTracker :=
  { ns := ns, widgets := [], trackerWidgets := [], focusCurrent := none,
    currentWidget := none, hasRestored := false, restoreCfg := none,
    resolveCount := 0, connected := [], injectedProp := [], nameProp := [] }

/-- The persistence step of `WidgetTracker.add`: when a restore
configuration with a non-empty name applies, record the name and start the
store write without awaiting it; the written name is returned so that the
write-completion marker can be placed after the synchronous segment. -/
def WTracker.addPersistPhase (tr : WTracker) (obj : Nat) :
    WTracker × List Ev × Option String :=
  match tr.restoreCfg with
  | none => (tr, [], none)
  | some cfg =>
    let widgetName := cfg.nameOf obj
    if widgetName = "" then (tr, [], none)
    else
      let name := tr.ns ++ ":" ++ widgetName
      ({ tr with nameProp := propSet tr.nameProp obj name },
       [Ev.storeSave name (cfg.argsOf obj)], some name)

/-- The current-widget step of `WidgetTracker.add`: when the focus tracker
reports no current widget, the new widget becomes current and
`currentChanged` is emitted. -/
def WTracker.addCurrentPhase (tr : WTracker) (obj : Nat) : WTracker × List Ev :=
  if tr.focusCurrent = none then
    ({ tr with currentWidget := some obj },
     [Ev.curSet (some obj), Ev.currentChanged (some obj)])
  else (tr, [])

/-- `WidgetTracker.add`: reject a disposed widget, reject a duplicate, add
to the focus tracker and push onto `_widgets`, return the already-resolved
promise early for injected widgets; otherwise connect the disposal
handler, run the persistence step (not awaited: the returned promise is
the save promise, so `writeLanded` comes after the whole synchronous
segment), make the widget current when the focus tracker reports no
current widget, and emit the added signal. -/
def WTracker.addOp (tr : WTracker) (obj : Nat) (isDisposed : Bool) :
    WTracker × List Ev × Option String :=
  if isDisposed then (tr, [], some "is disposed and cannot be tracked.")
  else if tr.trackerWidgets.contains obj then
    (tr, [], some "already exists in the tracker.")
  else
    let tr1 := { tr with trackerWidgets := tr.trackerWidgets ++ [obj],
                         widgets := tr.widgets ++ [obj] }
    if tr1.injectedProp.contains obj then (tr1, [Ev.inserted obj], none)
    else
      let tr2 := { tr1 with connected := tr1.connected ++ [obj] }
      let p := tr2.addPersistPhase obj
      let c := p.1.addCurrentPhase obj
      let landEvs : List Ev :=
        match p.2.2 with
        | none => []
        | some name => [Ev.writeLanded name]
      (c.1, [Ev.inserted obj] ++ p.2.1 ++ c.2 ++ [Ev.added obj] ++ landEvs,
       none)

/-- `WidgetTracker.save`: identical to `InstanceTracker.save`, except that
membership is checked against the focus tracker. -/
def WTracker.saveOp (tr : WTracker) (obj : Nat) : WTracker × List Ev :=
  match tr.restoreCfg with
  | none => (tr, [])
  | some cfg =>
    if !(tr.trackerWidgets.contains obj) || tr.injectedProp.contains obj then
      (tr, [])
    else
      let widgetName := cfg.nameOf obj
      let oldName := propGet tr.nameProp obj
      let newName := if widgetName = "" then "" else tr.ns ++ ":" ++ widgetName
      let evs1 := if oldName != "" && oldName != newName
        then [Ev.storeRemove oldName] else []
      let tr1 := { tr with nameProp := propSet tr.nameProp obj newName }
      let evs2 := if newName != ""
        then [Ev.storeSave newName (cfg.argsOf obj)] else []
      let evs3 := if oldName != newName then [Ev.updated obj] else []
      (tr1, evs1 ++ evs2 ++ evs3)

/-- `WidgetTracker._onWidgetDisposed`: stop for injected widgets (before
any removal), remove the widget from `_widgets`, and when it was current
recompute the pointer as the focus tracker's current widget, else the last
remaining widget in insertion order, else `null`, emitting
`currentChanged`; finally best-effort remove the persisted record. -/
def WTracker.onWidgetDisposed (tr : WTracker) (obj : Nat) : WTracker × List Ev :=
  if tr.injectedProp.contains obj then (tr, [])
  else
    let tr1 := { tr with widgets := tr.widgets.erase obj }
    let afterCurrent : WTracker × List Ev :=
      if tr1.currentWidget = some obj then
        let newCur : Option Nat :=
          match tr1.focusCurrent with
          | some c => some c
          | none => tr1.widgets.getLast?
        ({ tr1 with currentWidget := newCur },
         [Ev.curSet newCur, Ev.currentChanged newCur])
      else (tr1, [])
    let tr2 := afterCurrent.1
    match tr2.restoreCfg with
    | none => (tr2, afterCurrent.2)
    | some _ =>
      let name := propGet tr2.nameProp obj
      if name = "" then (tr2, afterCurrent.2)
      else (tr2, afterCurrent.2 ++ [Ev.storeRemove name])

/-- Synchronous prefix of `WidgetTracker.restore`, identical to the plain
variant's. -/
def WTracker.restoreSyncPhase (tr : WTracker) (cfg : RestoreCfg) :
    Except String WTracker :=
  if tr.hasRestored then Except.error "Instance tracker has already restored"
  else Except.ok { tr with hasRestored := true, restoreCfg := some cfg }

/-- Asynchronous remainder of `WidgetTracker.restore`, identical to the
plain variant's. -/
def WTracker.restoreAsyncPhase (tr : WTracker) (cfg : RestoreCfg)
    (execute : String → JSVal → Except Unit JSVal)
    (records : List (String × JSVal)) :
    WTracker × List RecordResult × List Ev :=
  let results := restoreProcess execute cfg.command (records.map Prod.snd)
  let removeEvs := (records.filter
    (fun r => (processRecord execute cfg.command r.2).removed)).map
    (fun r => Ev.storeRemove r.1)
  ({ tr with resolveCount := tr.resolveCount + 1 }, results,
   removeEvs ++ [Ev.resolvedRestored])

/-- Matcher for current-pointer mutation events. -/
def Ev.isCurSet : Ev → Bool
  | Ev.curSet _ => true
  | _ => false

/-- Matcher for insertion events. -/
def Ev.isInserted : Ev → Bool
  | Ev.inserted _ => true
  | _ => false

/-- Matcher for store-write events. -/
def Ev.isStoreSave : Ev → Bool
  | Ev.storeSave _ _ => true
  | _ => false

/-- Matcher for store-removal events. -/
def Ev.isStoreRemove : Ev → Bool
  | Ev.storeRemove _ => true
  | _ => false

/-- Matcher for write-completion markers. -/
def Ev.isWriteLanded : Ev → Bool
  | Ev.writeLanded _ => true
  | _ => false

/-- Matcher for `added` signal emissions. -/
def Ev.isAdded : Ev → Bool
  | Ev.added _ => true
  | _ => false

/-- Matcher for `currentChanged` signal emissions. -/
def Ev.isCurrentChanged : Ev → Bool
  | Ev.currentChanged _ => true
  | _ => false

/-- Matcher for `updated` signal emissions. -/
def Ev.isUpdatedEv : Ev → Bool
  | Ev.updated _ => true
  | _ => false

/-- Values the persistent store's contract allows in a listing: a value is
either absent (`undefined`) or a JSON object, whose fields (being JSON)
never hold `undefined`. -/
def contractValue : JSVal → Bool
  | JSVal.undefined => true
  | JSVal.obj fields => fields.all (fun p => !p.2.isUndefined)
  | _ => false

/-- A concrete restore configuration used to instantiate general theorems:
namespace fragment `doc1`, payload `{path: "a.txt"}`, command `open`. -/
def cfgDoc : RestoreCfg where
  command := "open"
  nameOf := fun _ => "doc1"
  argsOf := fun _ => JSVal.obj [("path", JSVal.str "a.txt")]

/-- A plain tracker in namespace `nb` with `cfgDoc` installed (the state a
tracker is in after `restore` ran with that configuration). -/
def trackerWithCfg : Tracker :=
  { Tracker.init "nb" with hasRestored := true, restoreCfg := some cfgDoc }

/-- A widget tracker in namespace `nb` with `cfgDoc` installed. -/
def wtrackerWithCfg : WTracker :=
  { WTracker.init "nb" with hasRestored := true, restoreCfg := some cfgDoc }

/-- Ghost bookkeeping alongside a run: the set of items whose disposal
notification has already fired. -/
def ghostStep (disposed : List Nat) : Op → List Nat
  | Op.dispose obj => obj :: disposed
  | _ => disposed

/-- Well-behaved use of one operation, given the ghost disposal set: the
`current` setter is only written with tracked items, `inject` is only
applied to untracked items, and a disposal notification fires at most once
per item.  These are exactly the usage conditions the source relies on; the
counterexamples to the unconditional invariant violate one of them. -/
def GoodOp (tr : Tracker) (disposed : List Nat) : Op → Prop
  | Op.setCur obj => obj ∈ tr.instances
  | Op.inject obj _ => obj ∉ tr.instances
  | Op.dispose obj => obj ∉ disposed
  | _ => True

/-- Well-behaved use of a whole operation sequence. -/
def GoodOps : Tracker → List Nat → List Op → Prop
  | _, _, [] => True
  | tr, disposed, op :: rest =>
      GoodOp tr disposed op ∧ GoodOps (tr.stepState op) (ghostStep disposed op) rest

/-- Ghost disposal set accumulated over a whole sequence. -/
def ghostRun (disposed : List Nat) : List Op → List Nat
  | [] => disposed
  | op :: rest => ghostRun (ghostStep disposed op) rest

/-- Inductive invariant for the guarded runs: the current pointer is
tracked, and a connected item that is injected or no longer tracked must
already have fired its disposal notification. -/
def TrackerInv (tr : Tracker) (disposed : List Nat) : Prop :=
  (∀ c, tr.current = some c → c ∈ tr.instances) ∧
  (∀ x, x ∈ tr.connected → x ∈ tr.injectedProp → x ∈ disposed) ∧
  (∀ x, x ∈ tr.connected → x ∉ tr.instances → x ∈ disposed)

theorem isUndefined_true_iff (v : JSVal) : v.isUndefined = true ↔ v = JSVal.undefined := by
  cases v <;> simp [JSVal.isUndefined]

theorem isUndefined_false_of_ne {v : JSVal} (h : v ≠ JSVal.undefined) :
    v.isUndefined = false := by
  cases v
  case undefined => exact absurd rfl h
  all_goals rfl

theorem jsArgs_of_contract {v : JSVal} (hc : contractValue v = true) :
    jsArgs v = jsGetField v "data" := by
  cases v <;> simp [contractValue] at hc <;> rfl

/-- C1: during `restore`, for every listed record within the store's
contract (value absent or a JSON object): a record whose `data` field is
absent is removed and the executor is never invoked for it; a record whose
`data` field is present has the executor invoked on it, the record being
removed when the invocation rejects and retained — with the executor's
return value as its outcome — when it succeeds; and the result for one
record depends only on that record. -/
theorem restore_record_handling
    (execute : String → JSVal → Except Unit JSVal) (command : String)
    (values : List JSVal) (i : Nat) (v : JSVal)
    (hv : values[i]? = some v)
    (hc : contractValue v = true) :
    (restoreProcess execute command values)[i]?
        = some (processRecord execute command v) ∧
    (jsGetField v "data" = JSVal.undefined →
      (processRecord execute command v).removed = true ∧
      (processRecord execute command v).executedWith = none) ∧
    (∀ d : JSVal, jsGetField v "data" = d → d ≠ JSVal.undefined →
      (processRecord execute command v).executedWith = some d ∧
      (∀ r : JSVal, execute command d = Except.ok r →
        (processRecord execute command v).removed = false ∧
        (processRecord execute command v).outcome = some r) ∧
      (∀ e : Unit, execute command d = Except.error e →
        (processRecord execute command v).removed = true)) ∧
    (∀ values2 : List JSVal, values2[i]? = some v →
      (restoreProcess execute command values2)[i]?
        = some (processRecord execute command v)) := by
  have hargs : jsArgs v = jsGetField v "data" := jsArgs_of_contract hc
  refine ⟨?_, ?_, ?_, ?_⟩
  · simp [restoreProcess, List.getElem?_map, hv]
  · intro hd
    simp [processRecord, hargs, hd, JSVal.isUndefined]
  · intro d hd hne
    have hfalse : d.isUndefined = false := isUndefined_false_of_ne hne
    refine ⟨?_, ?_, ?_⟩
    · cases hexec : execute command d <;>
        simp [processRecord, hargs, hd, hfalse, hexec]
    · intro r hr
      simp [processRecord, hargs, hd, hfalse, hr]
    · intro e he
      simp [processRecord, hargs, hd, hfalse, he]
  · intro values2 hv2
    simp [restoreProcess, List.getElem?_map, hv2]

/-- Witness for `restore_record_handling` at a concrete record
`{data: "x"}` with an executor that echoes its argument. -/
theorem restore_record_handling_witness :
    [JSVal.obj [("data", JSVal.str "x")]][0]?
        = some (JSVal.obj [("data", JSVal.str "x")]) ∧
    contractValue (JSVal.obj [("data", JSVal.str "x")]) = true ∧
    (restoreProcess (fun _ a => Except.ok a) "open"
        [JSVal.obj [("data", JSVal.str "x")]])[0]?
      = some (processRecord (fun _ a => Except.ok a) "open"
          (JSVal.obj [("data", JSVal.str "x")])) :=
  ⟨rfl, rfl,
    (restore_record_handling (fun _ a => Except.ok a) "open"
      [JSVal.obj [("data", JSVal.str "x")]] 0
      (JSVal.obj [("data", JSVal.str "x")]) rfl rfl).1⟩

/-- C10: orphan cleanup fires only when the extracted data is strictly
`undefined`: a present value whose `data` field is `null`, and a listed
value that is itself `null`, are not cleaned up — the executor is invoked
with the falsy value — and a record is only ever removed without invoking
the executor when the extracted data is `undefined`. -/
theorem restore_null_data_executes
    (execute : String → JSVal → Except Unit JSVal) (command : String)
    (fields : List (String × JSVal))
    (hf : jsGetField (JSVal.obj fields) "data" = JSVal.null) :
    (processRecord execute command (JSVal.obj fields)).executedWith
        = some JSVal.null ∧
    (∀ r : JSVal, execute command JSVal.null = Except.ok r →
      (processRecord execute command (JSVal.obj fields)).removed = false) ∧
    (processRecord execute command JSVal.null).executedWith = some JSVal.null ∧
    (∀ r : JSVal, execute command JSVal.null = Except.ok r →
      (processRecord execute command JSVal.null).removed = false) ∧
    (∀ w : JSVal, (processRecord execute command w).executedWith = none →
      jsArgs w = JSVal.undefined) := by
  have hobj : jsArgs (JSVal.obj fields) = JSVal.null := by
    simpa [jsArgs, jsTruthy] using hf
  have hnull : jsArgs JSVal.null = JSVal.null := rfl
  refine ⟨?_, ?_, ?_, ?_, ?_⟩
  · cases hexec : execute command JSVal.null <;>
      simp [processRecord, hobj, JSVal.isUndefined, hexec]
  · intro r hr
    simp [processRecord, hobj, JSVal.isUndefined, hr]
  · cases hexec : execute command JSVal.null <;>
      simp [processRecord, hnull, JSVal.isUndefined, hexec]
  · intro r hr
    simp [processRecord, hnull, JSVal.isUndefined, hr]
  · intro w hw
    by_cases hu : (jsArgs w).isUndefined = true
    · exact (isUndefined_true_iff (jsArgs w)).1 hu
    · exfalso
      cases hexec : execute command (jsArgs w) <;>
        simp [processRecord, Bool.eq_false_iff.2 hu, hexec] at hw

/-- Witness for `restore_null_data_executes` at `{data: null}` with an
executor that returns `true` on every invocation. -/
theorem restore_null_data_executes_witness :
    jsGetField (JSVal.obj [("data", JSVal.null)]) "data" = JSVal.null ∧
    (processRecord (fun _ _ => Except.ok (JSVal.bool true)) "open"
        (JSVal.obj [("data", JSVal.null)])).executedWith = some JSVal.null :=
  ⟨rfl,
    (restore_null_data_executes (fun _ _ => Except.ok (JSVal.bool true)) "open"
      [("data", JSVal.null)] rfl).1⟩

theorem contains_append_self (l : List Nat) (obj : Nat) :
    (l ++ [obj]).contains obj = true := by simp

theorem addPhases_fields (tr : Tracker) (obj : Nat) :
    ((tr.addPersistPhase obj).1.addCurrentPhase obj).1.ns = tr.ns ∧
    ((tr.addPersistPhase obj).1.addCurrentPhase obj).1.instances = tr.instances ∧
    ((tr.addPersistPhase obj).1.addCurrentPhase obj).1.hasRestored
      = tr.hasRestored ∧
    ((tr.addPersistPhase obj).1.addCurrentPhase obj).1.restoreCfg
      = tr.restoreCfg ∧
    ((tr.addPersistPhase obj).1.addCurrentPhase obj).1.resolveCount
      = tr.resolveCount ∧
    ((tr.addPersistPhase obj).1.addCurrentPhase obj).1.connected
      = tr.connected ∧
    ((tr.addPersistPhase obj).1.addCurrentPhase obj).1.injectedProp
      = tr.injectedProp ∧
    (((tr.addPersistPhase obj).1.addCurrentPhase obj).1.current = tr.current ∨
     (tr.current = none ∧
      ((tr.addPersistPhase obj).1.addCurrentPhase obj).1.current = some obj)) := by
  unfold Tracker.addPersistPhase Tracker.addCurrentPhase
  repeat' split <;> simp_all

theorem waddPhases_fields (tr : WTracker) (obj : Nat) :
    ((tr.addPersistPhase obj).1.addCurrentPhase obj).1.ns = tr.ns ∧
    ((tr.addPersistPhase obj).1.addCurrentPhase obj).1.widgets = tr.widgets ∧
    ((tr.addPersistPhase obj).1.addCurrentPhase obj).1.trackerWidgets
      = tr.trackerWidgets ∧
    ((tr.addPersistPhase obj).1.addCurrentPhase obj).1.focusCurrent
      = tr.focusCurrent ∧
    ((tr.addPersistPhase obj).1.addCurrentPhase obj).1.hasRestored
      = tr.hasRestored ∧
    ((tr.addPersistPhase obj).1.addCurrentPhase obj).1.restoreCfg
      = tr.restoreCfg ∧
    ((tr.addPersistPhase obj).1.addCurrentPhase obj).1.resolveCount
      = tr.resolveCount ∧
    ((tr.addPersistPhase obj).1.addCurrentPhase obj).1.connected
      = tr.connected ∧
    ((tr.addPersistPhase obj).1.addCurrentPhase obj).1.injectedProp
      = tr.injectedProp ∧
    (((tr.addPersistPhase obj).1.addCurrentPhase obj).1.currentWidget
        = tr.currentWidget ∨
     (tr.focusCurrent = none ∧
      ((tr.addPersistPhase obj).1.addCurrentPhase obj).1.currentWidget
        = some obj)) := by
  unfold WTracker.addPersistPhase WTracker.addCurrentPhase
  repeat' split <;> simp_all

theorem addOp_disposed (tr : Tracker) (obj : Nat) :
    tr.addOp obj true = (tr, [], some "A disposed object cannot be added.") := by
  unfold Tracker.addOp
  simp

theorem addOp_dup (tr : Tracker) (obj : Nat) (h : tr.instances.contains obj = true) :
    tr.addOp obj false
      = (tr, [], some "This object already exists in the tracker.") := by
  unfold Tracker.addOp
  rw [if_neg (by simp), if_pos h]

theorem addOp_success_spec (tr : Tracker) (obj : Nat)
    (h : tr.instances.contains obj = false) :
    (tr.addOp obj false).2.2 = none ∧
    (tr.addOp obj false).1.instances = tr.instances ++ [obj] ∧
    (tr.addOp obj false).1.ns = tr.ns ∧
    (tr.addOp obj false).1.hasRestored = tr.hasRestored ∧
    (tr.addOp obj false).1.restoreCfg = tr.restoreCfg ∧
    (tr.addOp obj false).1.resolveCount = tr.resolveCount ∧
    (tr.addOp obj false).1.injectedProp = tr.injectedProp := by
  unfold Tracker.addOp
  rw [if_neg (by simp), if_neg (by simpa using h)]
  dsimp only
  split
  · exact ⟨rfl, rfl, rfl, rfl, rfl, rfl, rfl⟩
  · obtain ⟨h1, h2, h3, h4, h5, h6, h7, -⟩ :=
      addPhases_fields
        { tr with instances := tr.instances ++ [obj],
                  connected := tr.connected ++ [obj] } obj
    exact ⟨rfl, h2, h1, h3, h4, h5, h7⟩

theorem waddOp_disposed (tr : WTracker) (obj : Nat) :
    tr.addOp obj true = (tr, [], some "is disposed and cannot be tracked.") := by
  unfold WTracker.addOp
  simp

theorem waddOp_dup (tr : WTracker) (obj : Nat)
    (h : tr.trackerWidgets.contains obj = true) :
    tr.addOp obj false = (tr, [], some "already exists in the tracker.") := by
  unfold WTracker.addOp
  rw [if_neg (by simp), if_pos h]

theorem waddOp_success_spec (tr : WTracker) (obj : Nat)
    (h : tr.trackerWidgets.contains obj = false) :
    (tr.addOp obj false).2.2 = none ∧
    (tr.addOp obj false).1.trackerWidgets = tr.trackerWidgets ++ [obj] ∧
    (tr.addOp obj false).1.widgets = tr.widgets ++ [obj] ∧
    (tr.addOp obj false).1.ns = tr.ns ∧
    (tr.addOp obj false).1.hasRestored = tr.hasRestored ∧
    (tr.addOp obj false).1.restoreCfg = tr.restoreCfg ∧
    (tr.addOp obj false).1.resolveCount = tr.resolveCount ∧
    (tr.addOp obj false).1.injectedProp = tr.injectedProp := by
  unfold WTracker.addOp
  rw [if_neg (by simp), if_neg (by simpa using h)]
  dsimp only
  split
  · exact ⟨rfl, rfl, rfl, rfl, rfl, rfl, rfl, rfl⟩
  · obtain ⟨h1, h2, h3, h4, h5, h6, h7, h8, h9, -⟩ :=
      waddPhases_fields
        { tr with trackerWidgets := tr.trackerWidgets ++ [obj],
                  widgets := tr.widgets ++ [obj],
                  connected := tr.connected ++ [obj] } obj
    exact ⟨rfl, h3, h2, h1, h5, h6, h7, h9⟩

/-- C9: `add` rejects without mutation, without signals, and without store
writes in exactly two cases — a disposed object and an already-tracked
object — and otherwise succeeds; adding the same object twice grows the
size by exactly one in total, the second call rejecting.  Both variants. -/
theorem add_rejects_disposed_and_duplicate :
    (∀ (tr : Tracker) (obj : Nat),
      tr.addOp obj true = (tr, [], some "A disposed object cannot be added.")) ∧
    (∀ (tr : Tracker) (obj : Nat), tr.instances.contains obj = true →
      tr.addOp obj false
        = (tr, [], some "This object already exists in the tracker.")) ∧
    (∀ (tr : Tracker) (obj : Nat), tr.instances.contains obj = false →
      (tr.addOp obj false).2.2 = none ∧
      (tr.addOp obj false).1.instances.length = tr.instances.length + 1 ∧
      ((tr.addOp obj false).1.addOp obj false)
        = ((tr.addOp obj false).1, [],
           some "This object already exists in the tracker.")) ∧
    (∀ (tr : WTracker) (obj : Nat),
      tr.addOp obj true = (tr, [], some "is disposed and cannot be tracked.")) ∧
    (∀ (tr : WTracker) (obj : Nat), tr.trackerWidgets.contains obj = true →
      tr.addOp obj false = (tr, [], some "already exists in the tracker.")) ∧
    (∀ (tr : WTracker) (obj : Nat), tr.trackerWidgets.contains obj = false →
      (tr.addOp obj false).2.2 = none ∧
      (tr.addOp obj false).1.trackerWidgets.length
        = tr.trackerWidgets.length + 1 ∧
      ((tr.addOp obj false).1.addOp obj false)
        = ((tr.addOp obj false).1, [],
           some "already exists in the tracker.")) := by
  refine ⟨addOp_disposed, addOp_dup, ?_, waddOp_disposed, waddOp_dup, ?_⟩
  · intro tr obj h
    obtain ⟨e, hinst, -⟩ := addOp_success_spec tr obj h
    refine ⟨e, ?_, ?_⟩
    · rw [hinst]; simp
    · exact addOp_dup _ obj (by rw [hinst]; exact contains_append_self _ _)
  · intro tr obj h
    obtain ⟨e, hinst, -⟩ := waddOp_success_spec tr obj h
    refine ⟨e, ?_, ?_⟩
    · rw [hinst]; simp
    · exact waddOp_dup _ obj (by rw [hinst]; exact contains_append_self _ _)

/-- Witness for `add_rejects_disposed_and_duplicate`: a fresh tracker, one
item, added twice. -/
theorem add_rejects_witness :
    (Tracker.init "ns").instances.contains 0 = false ∧
    (((Tracker.init "ns").addOp 0 false).2.2 = none ∧
     ((Tracker.init "ns").addOp 0 false).1.instances.length
        = (Tracker.init "ns").instances.length + 1 ∧
     (((Tracker.init "ns").addOp 0 false).1.addOp 0 false)
        = (((Tracker.init "ns").addOp 0 false).1, [],
           some "This object already exists in the tracker.")) :=
  ⟨rfl, add_rejects_disposed_and_duplicate.2.2.1 (Tracker.init "ns") 0 rfl⟩

theorem onInstanceDisposed_current_spec (tr : Tracker) (obj : Nat)
    (hinj : tr.injectedProp.contains obj = false)
    (hcur : tr.current = some obj) :
    (tr.onInstanceDisposed obj).1.current = none ∧
    (tr.onInstanceDisposed obj).2.countP Ev.isCurrentChanged = 1 ∧
    Ev.currentChanged none ∈ (tr.onInstanceDisposed obj).2 := by
  unfold Tracker.onInstanceDisposed
  dsimp only
  rw [if_neg (by simpa using hinj), if_pos hcur]
  repeat' split <;> simp [Ev.isCurrentChanged]

theorem onWidgetDisposed_current_spec (tr : WTracker) (obj : Nat)
    (hinj : tr.injectedProp.contains obj = false)
    (hcur : tr.currentWidget = some obj) :
    (tr.onWidgetDisposed obj).1.currentWidget
      = (match tr.focusCurrent with
         | some c => some c
         | none => (tr.widgets.erase obj).getLast?) ∧
    (tr.onWidgetDisposed obj).2.countP Ev.isCurrentChanged = 1 ∧
    Ev.currentChanged ((tr.onWidgetDisposed obj).1.currentWidget)
      ∈ (tr.onWidgetDisposed obj).2 := by
  unfold WTracker.onWidgetDisposed
  dsimp only
  rw [if_neg (by simpa using hinj), if_pos hcur]
  repeat' split <;> simp [Ev.isCurrentChanged]

/-- C8: when a non-injected item that is current fires its disposal
notification, the pointer is recomputed and `currentChanged` is emitted
exactly once: the plain variant nulls the pointer and fires with `null`;
the widget variant picks the focus source's current widget, else the last
remaining widget in insertion order, else `null`. -/
theorem dispose_current_recompute :
    (∀ (tr : Tracker) (obj : Nat),
      tr.injectedProp.contains obj = false → tr.current = some obj →
      (tr.onInstanceDisposed obj).1.current = none ∧
      (tr.onInstanceDisposed obj).2.countP Ev.isCurrentChanged = 1 ∧
      Ev.currentChanged none ∈ (tr.onInstanceDisposed obj).2) ∧
    (∀ (tr : WTracker) (obj : Nat),
      tr.injectedProp.contains obj = false → tr.currentWidget = some obj →
      (tr.onWidgetDisposed obj).1.currentWidget
        = (match tr.focusCurrent with
           | some c => some c
           | none => (tr.widgets.erase obj).getLast?) ∧
      (tr.onWidgetDisposed obj).2.countP Ev.isCurrentChanged = 1 ∧
      Ev.currentChanged ((tr.onWidgetDisposed obj).1.currentWidget)
        ∈ (tr.onWidgetDisposed obj).2) :=
  ⟨onInstanceDisposed_current_spec, onWidgetDisposed_current_spec⟩

/-- Witness for `dispose_current_recompute`: plain tracker with items 0, 1
and current 0, disposing 0; widget tracker with widgets 0, 1, no focused
widget and current 1, disposing 1 (fallback to the last remaining widget
0). -/
theorem dispose_current_recompute_witness :
    ((((Tracker.init "ns").addOp 0 false).1.addOp 1 false).1.injectedProp.contains 0
        = false) ∧
    ((((Tracker.init "ns").addOp 0 false).1.addOp 1 false).1.current = some 0) ∧
    (((((Tracker.init "ns").addOp 0 false).1.addOp 1 false).1.onInstanceDisposed 0).1.current
        = none) ∧
    ((((WTracker.init "ns").addOp 0 false).1.addOp 1 false).1.injectedProp.contains 1
        = false) ∧
    ((((WTracker.init "ns").addOp 0 false).1.addOp 1 false).1.currentWidget = some 1) ∧
    (((((WTracker.init "ns").addOp 0 false).1.addOp 1 false).1.onWidgetDisposed 1).1.currentWidget
        = some 0) :=
  ⟨rfl, rfl,
    (dispose_current_recompute.1
      (((Tracker.init "ns").addOp 0 false).1.addOp 1 false).1 0 rfl rfl).1,
    rfl, rfl,
    (dispose_current_recompute.2
      (((WTracker.init "ns").addOp 0 false).1.addOp 1 false).1 1 rfl rfl).1⟩

theorem propGet_propSet (props : List (Nat × String)) (obj : Nat) (v : String) :
    propGet (propSet props obj v) obj = v := by
  simp [propGet, propSet]

theorem saveOp_spec (tr : Tracker) (obj : Nat) (cfg : RestoreCfg)
    (oldName newName : String)
    (hcfg : tr.restoreCfg = some cfg)
    (hmem : tr.instances.contains obj = true)
    (hinj : tr.injectedProp.contains obj = false)
    (hold : oldName = propGet tr.nameProp obj)
    (hnew : newName
      = (if cfg.nameOf obj = "" then "" else tr.ns ++ ":" ++ cfg.nameOf obj)) :
    (oldName ≠ "" → oldName ≠ newName →
      (tr.saveOp obj).2.head? = some (Ev.storeRemove oldName)) ∧
    propGet (tr.saveOp obj).1.nameProp obj = newName ∧
    (newName ≠ "" → Ev.storeSave newName (cfg.argsOf obj) ∈ (tr.saveOp obj).2) ∧
    (tr.saveOp obj).2.countP Ev.isStoreSave = (if newName = "" then 0 else 1) ∧
    (tr.saveOp obj).2.countP Ev.isUpdatedEv = (if oldName = newName then 0 else 1) ∧
    (oldName ≠ newName → Ev.updated obj ∈ (tr.saveOp obj).2) := by
  subst hold
  subst hnew
  unfold Tracker.saveOp
  rw [hcfg]
  dsimp only
  have hguard : (!tr.instances.contains obj || tr.injectedProp.contains obj)
      = false := by rw [hmem, hinj]; rfl
  simp only [hguard, Bool.false_eq_true, if_false]
  repeat' split <;>
    simp_all [Ev.isStoreSave, Ev.isUpdatedEv, propGet_propSet]

theorem wsaveOp_spec (tr : WTracker) (obj : Nat) (cfg : RestoreCfg)
    (oldName newName : String)
    (hcfg : tr.restoreCfg = some cfg)
    (hmem : tr.trackerWidgets.contains obj = true)
    (hinj : tr.injectedProp.contains obj = false)
    (hold : oldName = propGet tr.nameProp obj)
    (hnew : newName
      = (if cfg.nameOf obj = "" then "" else tr.ns ++ ":" ++ cfg.nameOf obj)) :
    (oldName ≠ "" → oldName ≠ newName →
      (tr.saveOp obj).2.head? = some (Ev.storeRemove oldName)) ∧
    propGet (tr.saveOp obj).1.nameProp obj = newName ∧
    (newName ≠ "" → Ev.storeSave newName (cfg.argsOf obj) ∈ (tr.saveOp obj).2) ∧
    (tr.saveOp obj).2.countP Ev.isStoreSave = (if newName = "" then 0 else 1) ∧
    (tr.saveOp obj).2.countP Ev.isUpdatedEv = (if oldName = newName then 0 else 1) ∧
    (oldName ≠ newName → Ev.updated obj ∈ (tr.saveOp obj).2) := by
  subst hold
  subst hnew
  unfold WTracker.saveOp
  rw [hcfg]
  dsimp only
  have hguard : (!tr.trackerWidgets.contains obj || tr.injectedProp.contains obj)
      = false := by rw [hmem, hinj]; rfl
  simp only [hguard, Bool.false_eq_true, if_false]
  repeat' split <;>
    simp_all [Ev.isStoreSave, Ev.isUpdatedEv, propGet_propSet]

/-- C2: for a tracked, non-injected item under an installed restore
configuration, `save` removes the old record strictly before any write
when the old name is non-empty and changed, unconditionally updates the
recorded name, writes `{data: argsOf(item)}` under the new name exactly
when it is non-empty, and emits `updated` exactly once exactly when the
name changed.  Both variants. -/
theorem save_rename_protocol :
    (∀ (tr : Tracker) (obj : Nat) (cfg : RestoreCfg) (oldName newName : String),
      tr.restoreCfg = some cfg →
      tr.instances.contains obj = true →
      tr.injectedProp.contains obj = false →
      oldName = propGet tr.nameProp obj →
      newName = (if cfg.nameOf obj = "" then "" else tr.ns ++ ":" ++ cfg.nameOf obj) →
      (oldName ≠ "" → oldName ≠ newName →
        (tr.saveOp obj).2.head? = some (Ev.storeRemove oldName)) ∧
      propGet (tr.saveOp obj).1.nameProp obj = newName ∧
      (newName ≠ "" → Ev.storeSave newName (cfg.argsOf obj) ∈ (tr.saveOp obj).2) ∧
      (tr.saveOp obj).2.countP Ev.isStoreSave = (if newName = "" then 0 else 1) ∧
      (tr.saveOp obj).2.countP Ev.isUpdatedEv
        = (if oldName = newName then 0 else 1) ∧
      (oldName ≠ newName → Ev.updated obj ∈ (tr.saveOp obj).2)) ∧
    (∀ (tr : WTracker) (obj : Nat) (cfg : RestoreCfg) (oldName newName : String),
      tr.restoreCfg = some cfg →
      tr.trackerWidgets.contains obj = true →
      tr.injectedProp.contains obj = false →
      oldName = propGet tr.nameProp obj →
      newName = (if cfg.nameOf obj = "" then "" else tr.ns ++ ":" ++ cfg.nameOf obj) →
      (oldName ≠ "" → oldName ≠ newName →
        (tr.saveOp obj).2.head? = some (Ev.storeRemove oldName)) ∧
      propGet (tr.saveOp obj).1.nameProp obj = newName ∧
      (newName ≠ "" → Ev.storeSave newName (cfg.argsOf obj) ∈ (tr.saveOp obj).2) ∧
      (tr.saveOp obj).2.countP Ev.isStoreSave = (if newName = "" then 0 else 1) ∧
      (tr.saveOp obj).2.countP Ev.isUpdatedEv
        = (if oldName = newName then 0 else 1) ∧
      (oldName ≠ newName → Ev.updated obj ∈ (tr.saveOp obj).2)) :=
  ⟨fun tr obj cfg oldName newName hcfg hmem hinj hold hnew =>
      saveOp_spec tr obj cfg oldName newName hcfg hmem hinj hold hnew,
   fun tr obj cfg oldName newName hcfg hmem hinj hold hnew =>
      wsaveOp_spec tr obj cfg oldName newName hcfg hmem hinj hold hnew⟩

/-- Witness for `save_rename_protocol`: the tracker `trackerWithCfg` after
adding item 0 (recorded name `nb:doc1`), saved again with the unchanged
name — no `updated` signal is emitted. -/
theorem save_rename_protocol_witness :
    (trackerWithCfg.addOp 0 false).1.restoreCfg = some cfgDoc ∧
    (trackerWithCfg.addOp 0 false).1.instances.contains 0 = true ∧
    (trackerWithCfg.addOp 0 false).1.injectedProp.contains 0 = false ∧
    ("nb:doc1" : String) = propGet (trackerWithCfg.addOp 0 false).1.nameProp 0 ∧
    ("nb:doc1" : String)
      = (if cfgDoc.nameOf 0 = "" then ""
         else (trackerWithCfg.addOp 0 false).1.ns ++ ":" ++ cfgDoc.nameOf 0) ∧
    ((trackerWithCfg.addOp 0 false).1.saveOp 0).2.countP Ev.isUpdatedEv
      = (if ("nb:doc1" : String) = "nb:doc1" then 0 else 1) :=
  ⟨rfl, rfl, rfl, rfl, by decide,
    (save_rename_protocol.1 (trackerWithCfg.addOp 0 false).1 0 cfgDoc
      "nb:doc1" "nb:doc1" rfl rfl rfl rfl (by decide)).2.2.2.2.1⟩

theorem addOp_restore_fields (tr : Tracker) (obj : Nat) (d : Bool) :
    (tr.addOp obj d).1.hasRestored = tr.hasRestored ∧
    (tr.addOp obj d).1.resolveCount = tr.resolveCount := by
  cases d
  case true => rw [addOp_disposed]; exact ⟨rfl, rfl⟩
  case false =>
    by_cases hm : tr.instances.contains obj = true
    · rw [addOp_dup tr obj hm]; exact ⟨rfl, rfl⟩
    · unfold Tracker.addOp
      rw [if_neg (by simp), if_neg hm]
      dsimp only
      split
      · exact ⟨rfl, rfl⟩
      · obtain ⟨-, -, h3, -, h5, -, -, -⟩ :=
          addPhases_fields
            { tr with instances := tr.instances ++ [obj],
                      connected := tr.connected ++ [obj] } obj
        exact ⟨h3, h5⟩

theorem saveOp_restore_fields (tr : Tracker) (obj : Nat) :
    (tr.saveOp obj).1.hasRestored = tr.hasRestored ∧
    (tr.saveOp obj).1.resolveCount = tr.resolveCount := by
  unfold Tracker.saveOp
  constructor <;> split <;> try split
  all_goals rfl

theorem onInstanceDisposed_restore_fields (tr : Tracker) (obj : Nat) :
    (tr.onInstanceDisposed obj).1.hasRestored = tr.hasRestored ∧
    (tr.onInstanceDisposed obj).1.resolveCount = tr.resolveCount := by
  unfold Tracker.onInstanceDisposed
  dsimp only
  constructor <;> split <;> try split <;> try split <;> try split
  all_goals rfl

theorem setCurrent_restore_fields (tr : Tracker) (obj : Nat) :
    (tr.setCurrent obj).1.hasRestored = tr.hasRestored ∧
    (tr.setCurrent obj).1.resolveCount = tr.resolveCount := by
  unfold Tracker.setCurrent
  split <;> exact ⟨rfl, rfl⟩

theorem stepState_resolve_invariant (tr : Tracker) (op : Op)
    (h : tr.resolveCount = if tr.hasRestored then 1 else 0) :
    (tr.stepState op).resolveCount
      = if (tr.stepState op).hasRestored then 1 else 0 := by
  cases op with
  | add obj d =>
      have hf := addOp_restore_fields tr obj d
      simpa [Tracker.stepState, Tracker.step, hf.1, hf.2] using h
  | inject obj d =>
      have hf := addOp_restore_fields
        { tr with injectedProp := obj :: tr.injectedProp } obj d
      simpa [Tracker.stepState, Tracker.step, Tracker.injectOp, hf.1, hf.2] using h
  | save obj =>
      have hf := saveOp_restore_fields tr obj
      simpa [Tracker.stepState, Tracker.step, hf.1, hf.2] using h
  | dispose obj =>
      have hf := onInstanceDisposed_restore_fields tr obj
      by_cases hc : obj ∈ tr.connected
      · simpa [Tracker.stepState, Tracker.step, hc, hf.1, hf.2] using h
      · simpa [Tracker.stepState, Tracker.step, hc] using h
  | setCur obj =>
      have hf := setCurrent_restore_fields tr obj
      simpa [Tracker.stepState, Tracker.step, hf.1, hf.2] using h
  | restore cfg execute records =>
      by_cases hr : tr.hasRestored = true
      · simpa [Tracker.stepState, Tracker.step, Tracker.restoreSyncPhase, hr]
          using h
      · have hr0 : tr.hasRestored = false := by
          cases hb : tr.hasRestored
          · rfl
          · exact absurd hb hr
        have h0 : tr.resolveCount = 0 := by simpa [hr0] using h
        simp [Tracker.stepState, Tracker.step, Tracker.restoreSyncPhase, hr0,
          Tracker.restoreAsyncPhase, h0]

theorem runOps_resolve_invariant (ops : List Op) :
    ∀ tr : Tracker, tr.resolveCount = (if tr.hasRestored then 1 else 0) →
      (tr.runOps ops).resolveCount
        = if (tr.runOps ops).hasRestored then 1 else 0 := by
  induction ops with
  | nil => intro tr h; simpa [Tracker.runOps] using h
  | cons op rest ih =>
      intro tr h
      simpa [Tracker.runOps] using ih _ (stepState_resolve_invariant tr op h)

/-- C3: the first `restore` marks the tracker restored in its synchronous
prefix — before any asynchronous work — and installs the configuration;
every later call fails with the already-restored error leaving the state
untouched and producing no event; and along any operation sequence from a
fresh tracker the `restored` promise is resolved exactly once if a restore
has succeeded and never otherwise (in particular at most once).  Shown for
both variants, with the operation-sequence statement for the plain
variant. -/
theorem restore_single_shot :
    (∀ (tr : Tracker) (cfg : RestoreCfg), tr.hasRestored = false →
      tr.restoreSyncPhase cfg
        = Except.ok { tr with hasRestored := true, restoreCfg := some cfg }) ∧
    (∀ (tr : Tracker) (cfg : RestoreCfg), tr.hasRestored = true →
      tr.restoreSyncPhase cfg
        = Except.error "Instance tracker has already restored") ∧
    (∀ (tr : Tracker) (cfg : RestoreCfg)
        (execute : String → JSVal → Except Unit JSVal)
        (records : List (String × JSVal)), tr.hasRestored = true →
      tr.step (Op.restore cfg execute records)
        = (tr, [], some "Instance tracker has already restored")) ∧
    (∀ (tr : WTracker) (cfg : RestoreCfg), tr.hasRestored = false →
      tr.restoreSyncPhase cfg
        = Except.ok { tr with hasRestored := true, restoreCfg := some cfg }) ∧
    (∀ (tr : WTracker) (cfg : RestoreCfg), tr.hasRestored = true →
      tr.restoreSyncPhase cfg
        = Except.error "Instance tracker has already restored") ∧
    (∀ (ns : String) (ops : List Op),
      ((Tracker.init ns).runOps ops).resolveCount
        = (if ((Tracker.init ns).runOps ops).hasRestored then 1 else 0) ∧
      ((Tracker.init ns).runOps ops).resolveCount ≤ 1) := by
  refine ⟨?_, ?_, ?_, ?_, ?_, ?_⟩
  · intro tr cfg h; simp [Tracker.restoreSyncPhase, h]
  · intro tr cfg h; simp [Tracker.restoreSyncPhase, h]
  · intro tr cfg execute records h
    simp [Tracker.step, Tracker.restoreSyncPhase, h]
  · intro tr cfg h; simp [WTracker.restoreSyncPhase, h]
  · intro tr cfg h; simp [WTracker.restoreSyncPhase, h]
  · intro ns ops
    have hinv := runOps_resolve_invariant ops (Tracker.init ns) (by rfl)
    refine ⟨hinv, ?_⟩
    rw [hinv]
    split <;> simp

/-- Witness for `restore_single_shot`: a fresh tracker accepts `cfgDoc`,
and the already-restored tracker `trackerWithCfg` rejects a second call
with unchanged state. -/
theorem restore_single_shot_witness :
    (Tracker.init "nb").hasRestored = false ∧
    trackerWithCfg.hasRestored = true ∧
    (Tracker.init "nb").restoreSyncPhase cfgDoc
      = Except.ok ({ Tracker.init "nb" with
                     hasRestored := true, restoreCfg := some cfgDoc }) ∧
    trackerWithCfg.step (Op.restore cfgDoc (fun _ a => Except.ok a) [])
      = (trackerWithCfg, [], some "Instance tracker has already restored") :=
  ⟨rfl, rfl,
    restore_single_shot.1 (Tracker.init "nb") cfgDoc rfl,
    restore_single_shot.2.2.1 trackerWithCfg cfgDoc (fun _ a => Except.ok a) [] rfl⟩

theorem addPersistPhase_current (tr : Tracker) (obj : Nat) :
    (tr.addPersistPhase obj).1.current = tr.current := by
  unfold Tracker.addPersistPhase
  split
  · rfl
  · dsimp only
    split <;> rfl

theorem addCurrentPhase_current (tr : Tracker) (obj : Nat) :
    (tr.addCurrentPhase obj).1.current
      = (if tr.current = none then some obj else tr.current) := by
  unfold Tracker.addCurrentPhase
  split <;> simp_all

theorem addOp_state_cases (tr : Tracker) (obj : Nat) (d : Bool) :
    (tr.addOp obj d).1 = tr ∨
    ((tr.addOp obj d).1.instances = tr.instances ++ [obj] ∧
     (tr.addOp obj d).1.connected = tr.connected ∧
     (tr.addOp obj d).1.injectedProp = tr.injectedProp ∧
     (tr.addOp obj d).1.current = tr.current) ∨
    ((tr.addOp obj d).1.instances = tr.instances ++ [obj] ∧
     (tr.addOp obj d).1.connected = tr.connected ++ [obj] ∧
     (tr.addOp obj d).1.injectedProp = tr.injectedProp ∧
     tr.injectedProp.contains obj = false ∧
     ((tr.addOp obj d).1.current = tr.current ∨
      (tr.current = none ∧ (tr.addOp obj d).1.current = some obj))) := by
  cases d
  case true => exact Or.inl (by rw [addOp_disposed])
  case false =>
    by_cases hm : tr.instances.contains obj = true
    · exact Or.inl (by rw [addOp_dup tr obj hm])
    · unfold Tracker.addOp
      rw [if_neg (by simp), if_neg hm]
      dsimp only
      by_cases hinj : tr.injectedProp.contains obj = true
      · rw [if_pos hinj]
        exact Or.inr (Or.inl ⟨rfl, rfl, rfl, rfl⟩)
      · rw [if_neg hinj]
        dsimp only
        refine Or.inr (Or.inr ?_)
        obtain ⟨h1, h2, h3, h4, h5, h6, h7, -⟩ :=
          addPhases_fields
            { tr with instances := tr.instances ++ [obj],
                      connected := tr.connected ++ [obj] } obj
        refine ⟨h2, h6, h7, by simpa using hinj, ?_⟩
        rw [addCurrentPhase_current, addPersistPhase_current]
        by_cases hc : tr.current = none
        · exact Or.inr ⟨hc, by simp [hc]⟩
        · exact Or.inl (by simp [hc])

theorem saveOp_member_fields (tr : Tracker) (obj : Nat) :
    (tr.saveOp obj).1.instances = tr.instances ∧
    (tr.saveOp obj).1.current = tr.current ∧
    (tr.saveOp obj).1.connected = tr.connected ∧
    (tr.saveOp obj).1.injectedProp = tr.injectedProp := by
  unfold Tracker.saveOp
  refine ⟨?_, ?_, ?_, ?_⟩ <;> (split <;> try split)
  all_goals rfl

theorem onInstanceDisposed_member_fields (tr : Tracker) (obj : Nat) :
    (tr.onInstanceDisposed obj).1.instances = tr.instances.erase obj ∧
    (tr.onInstanceDisposed obj).1.connected = tr.connected ∧
    (tr.onInstanceDisposed obj).1.injectedProp = tr.injectedProp := by
  unfold Tracker.onInstanceDisposed
  dsimp only
  refine ⟨?_, ?_, ?_⟩ <;>
    (split <;> try split <;> try split <;> try split)
  all_goals rfl

theorem onInstanceDisposed_current_noninj (tr : Tracker) (obj : Nat)
    (hinj : tr.injectedProp.contains obj = false) :
    (tr.current = some obj → (tr.onInstanceDisposed obj).1.current = none) ∧
    (tr.current ≠ some obj →
      (tr.onInstanceDisposed obj).1.current = tr.current) := by
  unfold Tracker.onInstanceDisposed
  dsimp only
  rw [if_neg (by simpa using hinj)]
  constructor
  · intro hc
    rw [if_pos hc]
    (split <;> try split)
    all_goals rfl
  · intro hc
    rw [if_neg hc]
    (split <;> try split)
    all_goals rfl

theorem setCurrent_state (tr : Tracker) (obj : Nat) :
    (tr.setCurrent obj).1.instances = tr.instances ∧
    (tr.setCurrent obj).1.connected = tr.connected ∧
    (tr.setCurrent obj).1.injectedProp = tr.injectedProp ∧
    ((tr.setCurrent obj).1.current = some obj ∨
     (tr.setCurrent obj).1.current = tr.current) := by
  unfold Tracker.setCurrent
  split
  · exact ⟨rfl, rfl, rfl, Or.inr rfl⟩
  · exact ⟨rfl, rfl, rfl, Or.inl rfl⟩

theorem restoreStep_member_fields (tr : Tracker) (cfg : RestoreCfg)
    (execute : String → JSVal → Except Unit JSVal)
    (records : List (String × JSVal)) :
    (tr.stepState (Op.restore cfg execute records)).instances = tr.instances ∧
    (tr.stepState (Op.restore cfg execute records)).current = tr.current ∧
    (tr.stepState (Op.restore cfg execute records)).connected = tr.connected ∧
    (tr.stepState (Op.restore cfg execute records)).injectedProp
      = tr.injectedProp := by
  by_cases hr : tr.hasRestored = true
  · simp [Tracker.stepState, Tracker.step, Tracker.restoreSyncPhase, hr]
  · simp [Tracker.stepState, Tracker.step, Tracker.restoreSyncPhase, hr,
      Tracker.restoreAsyncPhase]

theorem not_mem_of_contains_eq_false {l : List Nat} {a : Nat}
    (h : l.contains a = false) : a ∉ l := by simpa using h

theorem stepState_preserves_inv (tr : Tracker) (disposed : List Nat) (op : Op)
    (hInv : TrackerInv tr disposed) (hGood : GoodOp tr disposed op) :
    TrackerInv (tr.stepState op) (ghostStep disposed op) := by
  unfold TrackerInv at hInv ⊢
  obtain ⟨inv1, inv2, inv3⟩ := hInv
  cases op with
  | add obj d =>
      have hstep : tr.stepState (Op.add obj d) = (tr.addOp obj d).1 := rfl
      have hghost : ghostStep disposed (Op.add obj d) = disposed := rfl
      rw [hstep, hghost]
      rcases addOp_state_cases tr obj d with hsame | ⟨hin, hconn, hinjp, hcur⟩ |
        ⟨hin, hconn, hinjp, hninj, hcur⟩
      · rw [hsame]; exact ⟨inv1, inv2, inv3⟩
      · refine ⟨?_, ?_, ?_⟩
        · intro c hc
          rw [hcur] at hc
          rw [hin]
          exact List.mem_append_left _ (inv1 c hc)
        · intro x hx hxi
          rw [hconn] at hx
          rw [hinjp] at hxi
          exact inv2 x hx hxi
        · intro x hx hxn
          rw [hconn] at hx
          rw [hin] at hxn
          exact inv3 x hx (fun hmem => hxn (List.mem_append_left _ hmem))
      · refine ⟨?_, ?_, ?_⟩
        · intro c hc
          rw [hin]
          rcases hcur with hsameCur | ⟨hnone, hobj⟩
          · rw [hsameCur] at hc
            exact List.mem_append_left _ (inv1 c hc)
          · rw [hobj] at hc
            have hco : c = obj := (Option.some.inj hc).symm
            subst hco
            exact List.mem_append_right _ (by simp)
        · intro x hx hxi
          rw [hconn] at hx
          rw [hinjp] at hxi
          rcases List.mem_append.mp hx with hx1 | hx2
          · exact inv2 x hx1 hxi
          · have hxo : x = obj := by simpa using hx2
            subst hxo
            exact absurd hxi (not_mem_of_contains_eq_false hninj)
        · intro x hx hxn
          rw [hconn] at hx
          rw [hin] at hxn
          rcases List.mem_append.mp hx with hx1 | hx2
          · exact inv3 x hx1 (fun hmem => hxn (List.mem_append_left _ hmem))
          · have hxo : x = obj := by simpa using hx2
            subst hxo
            exact absurd (List.mem_append_right _ (by simp)) hxn
  | inject obj d =>
      have hGoodI : obj ∉ tr.instances := hGood
      have inv2i : ∀ x, x ∈ tr.connected → x ∈ obj :: tr.injectedProp →
          x ∈ disposed := by
        intro x hx hxi
        rcases List.mem_cons.mp hxi with hxo | hxi2
        · subst hxo
          exact inv3 x hx hGoodI
        · exact inv2 x hx hxi2
      have hstep : tr.stepState (Op.inject obj d)
          = (Tracker.addOp { tr with injectedProp := obj :: tr.injectedProp }
              obj d).1 := rfl
      have hghost : ghostStep disposed (Op.inject obj d) = disposed := rfl
      rw [hstep, hghost]
      rcases addOp_state_cases { tr with injectedProp := obj :: tr.injectedProp }
          obj d with hsame | ⟨hin, hconn, hinjp, hcur⟩ |
          ⟨hin, hconn, hinjp, hninj, hcur⟩
      · rw [hsame]; exact ⟨inv1, inv2i, inv3⟩
      · refine ⟨?_, ?_, ?_⟩
        · intro c hc
          rw [hcur] at hc
          rw [hin]
          exact List.mem_append_left _ (inv1 c hc)
        · intro x hx hxi
          rw [hconn] at hx
          rw [hinjp] at hxi
          exact inv2i x hx hxi
        · intro x hx hxn
          rw [hconn] at hx
          rw [hin] at hxn
          exact inv3 x hx (fun hmem => hxn (List.mem_append_left _ hmem))
      · exact absurd hninj (by simp)
  | save obj =>
      obtain ⟨h1, h2, h3, h4⟩ := saveOp_member_fields tr obj
      have hstep : tr.stepState (Op.save obj) = (tr.saveOp obj).1 := rfl
      have hghost : ghostStep disposed (Op.save obj) = disposed := rfl
      rw [hstep, hghost]
      refine ⟨?_, ?_, ?_⟩
      · intro c hc
        rw [h2] at hc
        rw [h1]
        exact inv1 c hc
      · intro x hx hxi
        rw [h3] at hx
        rw [h4] at hxi
        exact inv2 x hx hxi
      · intro x hx hxn
        rw [h3] at hx
        rw [h1] at hxn
        exact inv3 x hx hxn
  | dispose obj =>
      have hGoodD : obj ∉ disposed := hGood
      have hghost : ghostStep disposed (Op.dispose obj) = obj :: disposed := rfl
      rw [hghost]
      by_cases hconn : tr.connected.contains obj = true
      · have hmemc : obj ∈ tr.connected := by simpa using hconn
        have hinj : tr.injectedProp.contains obj = false := by
          cases hb : tr.injectedProp.contains obj
          · rfl
          · have hbm : obj ∈ tr.injectedProp := by simpa using hb
            exact absurd (inv2 obj hmemc hbm) hGoodD
        have hstep : tr.stepState (Op.dispose obj)
            = (tr.onInstanceDisposed obj).1 := by
          simp [Tracker.stepState, Tracker.step, hmemc]
        obtain ⟨h1, h2, h3⟩ := onInstanceDisposed_member_fields tr obj
        obtain ⟨hc1, hc2⟩ := onInstanceDisposed_current_noninj tr obj hinj
        rw [hstep]
        refine ⟨?_, ?_, ?_⟩
        · intro c hc
          by_cases hcur : tr.current = some obj
          · rw [hc1 hcur] at hc
            exact absurd hc (by simp)
          · rw [hc2 hcur] at hc
            have hci := inv1 c hc
            have hne : c ≠ obj := fun he => hcur (by rw [← he]; exact hc)
            rw [h1]
            exact (List.mem_erase_of_ne hne).mpr hci
        · intro x hx hxi
          rw [h2] at hx
          rw [h3] at hxi
          exact List.mem_cons_of_mem _ (inv2 x hx hxi)
        · intro x hx hxn
          rw [h2] at hx
          rw [h1] at hxn
          by_cases hxo : x = obj
          · subst hxo
            exact List.mem_cons_self _ _
          · have hni : x ∉ tr.instances :=
              fun hmem => hxn ((List.mem_erase_of_ne hxo).mpr hmem)
            exact List.mem_cons_of_mem _ (inv3 x hx hni)
      · have hnm : obj ∉ tr.connected := by simpa using hconn
        have hstep : tr.stepState (Op.dispose obj) = tr := by
          simp [Tracker.stepState, Tracker.step, hnm]
        rw [hstep]
        exact ⟨inv1, fun x hx hxi => List.mem_cons_of_mem _ (inv2 x hx hxi),
               fun x hx hxn => List.mem_cons_of_mem _ (inv3 x hx hxn)⟩
  | setCur obj =>
      have hGoodS : obj ∈ tr.instances := hGood
      obtain ⟨h1, h2, h3, h4⟩ := setCurrent_state tr obj
      have hstep : tr.stepState (Op.setCur obj) = (tr.setCurrent obj).1 := rfl
      have hghost : ghostStep disposed (Op.setCur obj) = disposed := rfl
      rw [hstep, hghost]
      refine ⟨?_, ?_, ?_⟩
      · intro c hc
        rw [h1]
        rcases h4 with hobj | hsame
        · rw [hobj] at hc
          have hco : c = obj := (Option.some.inj hc).symm
          subst hco
          exact hGoodS
        · rw [hsame] at hc
          exact inv1 c hc
      · intro x hx hxi
        rw [h2] at hx
        rw [h3] at hxi
        exact inv2 x hx hxi
      · intro x hx hxn
        rw [h2] at hx
        rw [h1] at hxn
        exact inv3 x hx hxn
  | restore cfg execute records =>
      obtain ⟨h1, h2, h3, h4⟩ := restoreStep_member_fields tr cfg execute records
      have hghost : ghostStep disposed (Op.restore cfg execute records)
          = disposed := rfl
      rw [hghost]
      refine ⟨?_, ?_, ?_⟩
      · intro c hc
        rw [h2] at hc
        rw [h1]
        exact inv1 c hc
      · intro x hx hxi
        rw [h3] at hx
        rw [h4] at hxi
        exact inv2 x hx hxi
      · intro x hx hxn
        rw [h3] at hx
        rw [h1] at hxn
        exact inv3 x hx hxn

theorem runOps_preserves_inv (ops : List Op) :
    ∀ (tr : Tracker) (disposed : List Nat),
      TrackerInv tr disposed → GoodOps tr disposed ops →
      TrackerInv (tr.runOps ops) (ghostRun disposed ops) := by
  induction ops with
  | nil => intro tr disposed hInv _; exact hInv
  | cons op rest ih =>
      intro tr disposed hInv hGood
      obtain ⟨hop, hrest⟩ := hGood
      exact ih (tr.stepState op) (ghostStep disposed op)
        (stepState_preserves_inv tr disposed op hInv hop) hrest

/-- Counterexample to C4: writing a non-member through the `current`
setter leaves the pointer pointing at an untracked item — the setter has
no membership guard. -/
theorem current_member_invariant_cex :
    ((Tracker.init "ns").stepState (Op.setCur 5)).current = some 5 ∧
    ((Tracker.init "ns").stepState (Op.setCur 5)).instances = [] :=
  ⟨rfl, rfl⟩

/-- C4 amended: along every operation sequence from a fresh tracker in
which the `current` setter is only written with tracked items, `inject` is
only applied to untracked items, and each item's disposal notification
fires at most once, the current pointer is `null` or a member of the
tracked set.  Every synchronous boundary is the end state of such a
(prefix) sequence, so the invariant holds at each boundary. -/
theorem current_member_invariant_amended (ns : String) (ops : List Op)
    (hgood : GoodOps (Tracker.init ns) [] ops) :
    ∀ c : Nat, ((Tracker.init ns).runOps ops).current = some c →
      c ∈ ((Tracker.init ns).runOps ops).instances := by
  have hInv0 : TrackerInv (Tracker.init ns) [] := by
    refine ⟨?_, ?_, ?_⟩
    · intro c hc
      simp [Tracker.init] at hc
    · intro x hx
      simp [Tracker.init] at hx
    · intro x hx
      simp [Tracker.init] at hx
  exact (runOps_preserves_inv ops (Tracker.init ns) [] hInv0 hgood).1

/-- Witness for `current_member_invariant_amended`: the sequence
`add 0; add 1; setCur 1; dispose 0` is well-behaved, and at its end the
current pointer is a member. -/
theorem current_member_invariant_witness :
    GoodOps (Tracker.init "ns") []
      [Op.add 0 false, Op.add 1 false, Op.setCur 1, Op.dispose 0] ∧
    (((Tracker.init "ns").runOps
        [Op.add 0 false, Op.add 1 false, Op.setCur 1, Op.dispose 0]).current
      = some 1 →
     1 ∈ ((Tracker.init "ns").runOps
        [Op.add 0 false, Op.add 1 false, Op.setCur 1, Op.dispose 0]).instances) := by
  have hg : GoodOps (Tracker.init "ns") []
      [Op.add 0 false, Op.add 1 false, Op.setCur 1, Op.dispose 0] := by
    refine ⟨trivial, trivial, ?_, ?_, trivial⟩
    · show (1 : Nat) ∈ (((Tracker.init "ns").stepState
        (Op.add 0 false)).stepState (Op.add 1 false)).instances
      decide
    · show (0 : Nat) ∉ ghostStep (ghostStep (ghostStep [] (Op.add 0 false))
        (Op.add 1 false)) (Op.setCur 1)
      decide
  exact ⟨hg, fun _ => current_member_invariant_amended "ns"
    [Op.add 0 false, Op.add 1 false, Op.setCur 1, Op.dispose 0] hg 1
    (by decide)⟩

/-- Counterexample to C6: injecting a fresh item succeeds, but no `added`
signal is emitted for it, and when its disposal notification later fires
the item remains in the tracked set (plain variant) — `add` returns before
connecting the disposal handler or emitting `added` for injected items. -/
theorem inject_added_cleanup_cex :
    ((Tracker.init "ns").injectOp 0 false).2.2 = none ∧
    ((Tracker.init "ns").injectOp 0 false).2.1.countP Ev.isAdded = 0 ∧
    (((Tracker.init "ns").injectOp 0 false).1.stepState (Op.dispose 0)).instances
      = [0] :=
  ⟨rfl, rfl, rfl⟩

/-- C6 amended: injected items are exempt from persistence bookkeeping —
`add` writes nothing to the store and `save` is a no-op for them — but,
contrary to the claim, the `added` signal does not fire for them and they
are not disposal-tracked: a successful injected add emits only the
insertion marker, leaves the disposal handler unconnected, and a later
disposal notification leaves the tracker state unchanged (plain
variant). -/
theorem inject_exemption_amended (tr : Tracker) (obj : Nat)
    (hinj : tr.injectedProp.contains obj = true)
    (hmem : tr.instances.contains obj = false)
    (hconn : tr.connected.contains obj = false) :
    tr.addOp obj false
      = ({ tr with instances := tr.instances ++ [obj] },
         [Ev.inserted obj], none) ∧
    (tr.addOp obj false).1.connected = tr.connected ∧
    ((tr.addOp obj false).1.stepState (Op.dispose obj)) = (tr.addOp obj false).1 ∧
    tr.saveOp obj = (tr, []) := by
  have hadd : tr.addOp obj false
      = ({ tr with instances := tr.instances ++ [obj] },
         [Ev.inserted obj], none) := by
    unfold Tracker.addOp
    rw [if_neg (by simp), if_neg (by simpa using hmem)]
    dsimp only
    rw [if_pos hinj]
  refine ⟨hadd, by rw [hadd], ?_, ?_⟩
  · rw [hadd]
    have hnm : obj ∉ ({ tr with instances := tr.instances ++ [obj] }
        : Tracker).connected := by simpa using hconn
    simp [Tracker.stepState, Tracker.step, hnm]
  · unfold Tracker.saveOp
    rcases hcfg : tr.restoreCfg with _ | cfg
    · rfl
    · dsimp only
      rw [if_pos (by rw [hinj]; simp)]

/-- Witness for `inject_exemption_amended` at a fresh tracker whose
`injected` property is set for item 0 (the state `inject` creates before
delegating to `add`). -/
theorem inject_exemption_witness :
    ({ Tracker.init "ns" with
       injectedProp := [0] } : Tracker).injectedProp.contains 0 = true ∧
    ({ Tracker.init "ns" with
       injectedProp := [0] } : Tracker).instances.contains 0 = false ∧
    ({ Tracker.init "ns" with
       injectedProp := [0] } : Tracker).connected.contains 0 = false ∧
    ({ Tracker.init "ns" with injectedProp := [0] } : Tracker).saveOp 0
      = ({ Tracker.init "ns" with injectedProp := [0] }, []) :=
  ⟨rfl, rfl, rfl,
    (inject_exemption_amended { Tracker.init "ns" with injectedProp := [0] } 0
      rfl rfl rfl).2.2.2⟩

/-- Counterexample to C7: injecting a fresh item into an empty tracker
succeeds while the current pointer is `null`, and the item is tracked
afterwards, yet it does not become current. -/
theorem add_current_iff_cex :
    (Tracker.init "ns").current = none ∧
    ((Tracker.init "ns").injectOp 0 false).2.2 = none ∧
    ((Tracker.init "ns").injectOp 0 false).1.instances = [0] ∧
    ((Tracker.init "ns").injectOp 0 false).1.current = none :=
  ⟨rfl, rfl, rfl, rfl⟩

theorem waddPersistPhase_currentFocus (tr : WTracker) (obj : Nat) :
    (tr.addPersistPhase obj).1.currentWidget = tr.currentWidget ∧
    (tr.addPersistPhase obj).1.focusCurrent = tr.focusCurrent := by
  unfold WTracker.addPersistPhase
  split
  · exact ⟨rfl, rfl⟩
  · dsimp only
    split <;> exact ⟨rfl, rfl⟩

theorem waddCurrentPhase_current (tr : WTracker) (obj : Nat) :
    (tr.addCurrentPhase obj).1.currentWidget
      = (if tr.focusCurrent = none then some obj else tr.currentWidget) := by
  unfold WTracker.addCurrentPhase
  split <;> simp_all

/-- C7 amended: in the plain variant a successfully added non-injected
item becomes current exactly when the pointer was `null` beforehand, and
injected items never change the pointer; in the widget variant a
successfully added non-injected item becomes current exactly when the
external focus tracker reports no current widget beforehand — even when
the tracker's own pointer is non-null — and injected widgets never change
the pointer. -/
theorem add_current_policy_amended :
    (∀ (tr : Tracker) (obj : Nat), tr.instances.contains obj = false →
      tr.injectedProp.contains obj = false →
      ((tr.current = none → (tr.addOp obj false).1.current = some obj) ∧
       (tr.current ≠ none → (tr.addOp obj false).1.current = tr.current))) ∧
    (∀ (tr : Tracker) (obj : Nat), tr.instances.contains obj = false →
      tr.injectedProp.contains obj = true →
      (tr.addOp obj false).1.current = tr.current) ∧
    (∀ (tr : WTracker) (obj : Nat), tr.trackerWidgets.contains obj = false →
      tr.injectedProp.contains obj = false →
      ((tr.focusCurrent = none →
          (tr.addOp obj false).1.currentWidget = some obj) ∧
       (tr.focusCurrent ≠ none →
          (tr.addOp obj false).1.currentWidget = tr.currentWidget))) ∧
    (∀ (tr : WTracker) (obj : Nat), tr.trackerWidgets.contains obj = false →
      tr.injectedProp.contains obj = true →
      (tr.addOp obj false).1.currentWidget = tr.currentWidget) := by
  refine ⟨?_, ?_, ?_, ?_⟩
  · intro tr obj hmem hinj
    unfold Tracker.addOp
    rw [if_neg (by simp), if_neg (by simpa using hmem)]
    dsimp only
    rw [if_neg (by simpa using hinj)]
    dsimp only
    rw [addCurrentPhase_current, addPersistPhase_current]
    constructor
    · intro hc
      simp [hc]
    · intro hc
      simp [hc]
  · intro tr obj hmem hinj
    unfold Tracker.addOp
    rw [if_neg (by simp), if_neg (by simpa using hmem)]
    dsimp only
    rw [if_pos hinj]
  · intro tr obj hmem hinj
    unfold WTracker.addOp
    rw [if_neg (by simp), if_neg (by simpa using hmem)]
    dsimp only
    rw [if_neg (by simpa using hinj)]
    dsimp only
    rw [waddCurrentPhase_current,
      (waddPersistPhase_currentFocus _ obj).1,
      (waddPersistPhase_currentFocus _ obj).2]
    constructor
    · intro hc
      simp [hc]
    · intro hc
      simp [hc]
  · intro tr obj hmem hinj
    unfold WTracker.addOp
    rw [if_neg (by simp), if_neg (by simpa using hmem)]
    dsimp only
    rw [if_pos hinj]

/-- Witness for `add_current_policy_amended`: a first non-injected add into
an empty plain tracker makes the item current. -/
theorem add_current_policy_witness :
    (Tracker.init "ns").instances.contains 0 = false ∧
    (Tracker.init "ns").injectedProp.contains 0 = false ∧
    (Tracker.init "ns").current = none ∧
    ((Tracker.init "ns").addOp 0 false).1.current = some 0 :=
  ⟨rfl, rfl, rfl,
    (add_current_policy_amended.1 (Tracker.init "ns") 0 rfl rfl).1 rfl⟩

theorem waddPersistPhase_no_writeLanded (tr : WTracker) (obj : Nat) :
    ∀ e ∈ (tr.addPersistPhase obj).2.1, e.isWriteLanded = false := by
  unfold WTracker.addPersistPhase
  split
  · intro e he
    simp at he
  · dsimp only
    split
    · intro e he
      simp at he
    · intro e he
      simp at he
      subst he
      rfl

theorem waddCurrentPhase_no_writeLanded (tr : WTracker) (obj : Nat) :
    ∀ e ∈ (tr.addCurrentPhase obj).2, e.isWriteLanded = false := by
  unfold WTracker.addCurrentPhase
  split
  · intro e he
    simp at he
    rcases he with h | h <;> subst h <;> rfl
  · intro e he
    simp at he

theorem waddCurrentPhase_of_none (tr : WTracker) (obj : Nat)
    (h : tr.focusCurrent = none) :
    tr.addCurrentPhase obj
      = ({ tr with currentWidget := some obj },
         [Ev.curSet (some obj), Ev.currentChanged (some obj)]) := by
  unfold WTracker.addCurrentPhase
  rw [if_pos h]

theorem addPersistPhase_of_some (tr : Tracker) (obj : Nat) (cfg : RestoreCfg)
    (hcfg : tr.restoreCfg = some cfg) (hname : cfg.nameOf obj ≠ "") :
    tr.addPersistPhase obj
      = ({ tr with
           nameProp := propSet tr.nameProp obj (tr.ns ++ ":" ++ cfg.nameOf obj) },
         [Ev.storeSave (tr.ns ++ ":" ++ cfg.nameOf obj) (cfg.argsOf obj),
          Ev.writeLanded (tr.ns ++ ":" ++ cfg.nameOf obj)]) := by
  unfold Tracker.addPersistPhase
  rw [hcfg]
  dsimp only
  rw [if_neg hname]

theorem addCurrentPhase_of_none (tr : Tracker) (obj : Nat)
    (h : tr.current = none) :
    tr.addCurrentPhase obj
      = ({ tr with current := some obj },
         [Ev.curSet (some obj), Ev.currentChanged (some obj)]) := by
  unfold Tracker.addCurrentPhase
  rw [if_pos h]

/-- Counterexample to C5: in the plain variant, with a restore
configuration installed and a named item, the unique current-pointer
mutation (`curSet`, index 3) and the `added` signal occur strictly after
the write-completion marker (`writeLanded`, index 2), so the current
update does not take effect before the asynchronous persistence write
completes. -/
theorem add_sync_visibility_cex :
    (trackerWithCfg.addOp 0 false).2.2 = none ∧
    (trackerWithCfg.addOp 0 false).2.1
      = [Ev.inserted 0,
         Ev.storeSave "nb:doc1" (JSVal.obj [("path", JSVal.str "a.txt")]),
         Ev.writeLanded "nb:doc1", Ev.curSet (some 0),
         Ev.currentChanged (some 0), Ev.added 0] ∧
    ((trackerWithCfg.addOp 0 false).2.1.take 3).countP Ev.isWriteLanded = 1 ∧
    ((trackerWithCfg.addOp 0 false).2.1.take 3).countP Ev.isCurSet = 0 ∧
    (trackerWithCfg.addOp 0 false).2.1.countP Ev.isCurSet = 1 :=
  ⟨rfl, rfl, rfl, rfl, rfl⟩

/-- C5 amended: in the widget variant every synchronous effect of a
successful `add` — insertion, the current-pointer update, and the added
signal — occurs strictly before any write-completion marker, and the
returned completion only signals that the write has landed; in the plain
variant the insertion is still the first effect and membership is visible
synchronously, but when a restore configuration is installed and the item
has a non-empty name the current-pointer update and the added signal occur
only after the persistence write completes. -/
theorem add_sync_visibility_amended :
    (∀ (tr : WTracker) (obj : Nat), tr.trackerWidgets.contains obj = false →
      ∃ pre land : List Ev,
        (tr.addOp obj false).2.1 = pre ++ land ∧
        (∀ e ∈ pre, e.isWriteLanded = false) ∧
        (∀ e ∈ land, e.isWriteLanded = true) ∧
        Ev.inserted obj ∈ pre ∧
        (tr.addOp obj false).1.trackerWidgets = tr.trackerWidgets ++ [obj] ∧
        (tr.addOp obj false).2.2 = none ∧
        (tr.injectedProp.contains obj = false →
          Ev.added obj ∈ pre ∧
          (tr.focusCurrent = none →
            Ev.curSet (some obj) ∈ pre ∧
            (tr.addOp obj false).1.currentWidget = some obj))) ∧
    (∀ (tr : Tracker) (obj : Nat) (cfg : RestoreCfg) (name : String),
      tr.instances.contains obj = false →
      tr.injectedProp.contains obj = false →
      tr.restoreCfg = some cfg →
      cfg.nameOf obj ≠ "" →
      tr.current = none →
      name = tr.ns ++ ":" ++ cfg.nameOf obj →
      (tr.addOp obj false).2.1
        = [Ev.inserted obj, Ev.storeSave name (cfg.argsOf obj),
           Ev.writeLanded name, Ev.curSet (some obj),
           Ev.currentChanged (some obj), Ev.added obj] ∧
      (tr.addOp obj false).1.instances = tr.instances ++ [obj]) ∧
    (∀ (tr : Tracker) (obj : Nat), tr.instances.contains obj = false →
      (tr.addOp obj false).2.1.head? = some (Ev.inserted obj) ∧
      (tr.addOp obj false).1.instances = tr.instances ++ [obj] ∧
      (tr.addOp obj false).2.2 = none) := by
  refine ⟨?_, ?_, ?_⟩
  · intro tr obj hmem
    unfold WTracker.addOp
    rw [if_neg (by simp), if_neg (by simpa using hmem)]
    dsimp only
    by_cases hinj : tr.injectedProp.contains obj = true
    · rw [if_pos hinj]
      refine ⟨[Ev.inserted obj], [], by simp, ?_, by simp, by simp, rfl, rfl, ?_⟩
      · intro e he
        simp at he
        subst he
        rfl
      · intro hfalse
        rw [hfalse] at hinj
        exact absurd hinj (by simp)
    · rw [if_neg hinj]
      dsimp only
      set tr2 : WTracker := { tr with
        trackerWidgets := tr.trackerWidgets ++ [obj]
        widgets := tr.widgets ++ [obj]
        connected := tr.connected ++ [obj] } with hTr2
      refine ⟨[Ev.inserted obj] ++ (tr2.addPersistPhase obj).2.1
          ++ ((tr2.addPersistPhase obj).1.addCurrentPhase obj).2
          ++ [Ev.added obj],
        (match (tr2.addPersistPhase obj).2.2 with
         | none => ([] : List Ev)
         | some name => [Ev.writeLanded name]),
        by simp, ?_, ?_, by simp, ?_, rfl, ?_⟩
      · intro e he
        simp only [List.mem_append, List.mem_singleton] at he
        rcases he with ((h | h) | h) | h
        · subst h; rfl
        · exact waddPersistPhase_no_writeLanded tr2 obj e h
        · exact waddCurrentPhase_no_writeLanded ((tr2.addPersistPhase obj).1)
            obj e h
        · subst h; rfl
      · intro e he
        rcases hw : (tr2.addPersistPhase obj).2.2 with _ | name
        · rw [hw] at he
          simp at he
        · rw [hw] at he
          simp at he
          subst he
          rfl
      · exact (waddPhases_fields tr2 obj).2.2.1
      · intro hninj
        refine ⟨by simp, ?_⟩
        intro hfocus
        have hfc : (tr2.addPersistPhase obj).1.focusCurrent = none := by
          rw [(waddPersistPhase_currentFocus tr2 obj).2, hTr2]
          exact hfocus
        rw [waddCurrentPhase_of_none _ obj hfc]
        exact ⟨by simp, rfl⟩
  · intro tr obj cfg name hmem hinj hcfg hname hcur hnameEq
    subst hnameEq
    unfold Tracker.addOp
    rw [if_neg (by simp), if_neg (by simpa using hmem)]
    dsimp only
    rw [if_neg (by simpa using hinj)]
    unfold Tracker.addPersistPhase Tracker.addCurrentPhase
    dsimp only
    rw [hcfg]
    dsimp only
    rw [if_neg hname]
    dsimp only
    rw [hcur]
    simp
  · intro tr obj hmem
    obtain ⟨e1, e2, -⟩ := addOp_success_spec tr obj hmem
    refine ⟨?_, e2, e1⟩
    unfold Tracker.addOp
    rw [if_neg (by simp), if_neg (by simpa using hmem)]
    dsimp only
    split
    · rfl
    · rfl

/-- Witness for `add_sync_visibility_amended`: the plain tracker with
`cfgDoc` installed, adding item 0: the full trace shows the write landing
before the current update, and membership visible synchronously. -/
theorem add_sync_visibility_witness :
    trackerWithCfg.instances.contains 0 = false ∧
    trackerWithCfg.injectedProp.contains 0 = false ∧
    trackerWithCfg.restoreCfg = some cfgDoc ∧
    cfgDoc.nameOf 0 ≠ "" ∧
    trackerWithCfg.current = none ∧
    ("nb:doc1" : String) = trackerWithCfg.ns ++ ":" ++ cfgDoc.nameOf 0 ∧
    ((trackerWithCfg.addOp 0 false).2.1
        = [Ev.inserted 0, Ev.storeSave "nb:doc1" (cfgDoc.argsOf 0),
           Ev.writeLanded "nb:doc1", Ev.curSet (some 0),
           Ev.currentChanged (some 0), Ev.added 0] ∧
     (trackerWithCfg.addOp 0 false).1.instances
        = trackerWithCfg.instances ++ [0]) :=
  ⟨rfl, rfl, rfl, by decide, rfl, by decide,
    add_sync_visibility_amended.2.1 trackerWithCfg 0 cfgDoc "nb:doc1"
      rfl rfl rfl (by decide) rfl (by decide)⟩
